import Mathlib

/-
Verification of the virtualized image grid (the ImageGrid custom element).

The embedding models the grid state that the claims are about: the item
collection, the layout quantities computed by calculateLayout (cols,
totalRows, maxEnd, window), the materialized index range, the rendering
surface (the ordered list of asset-element ids attached under the items
node), the selection model (selected set plus primary), and the detail
dialog state.  JavaScript numbers that hold integers are modelled as Int
(so that the negative intermediate values the code produces, such as
maxEnd = -1 for an empty collection, are represented faithfully); ids are
the item ids (natural numbers).  DOM loops become folds over the exact
index lists the for-loops iterate.
-/

/-- One media item (MediaInfo): a stable id plus display metadata. -/
structure Item where
  id : Nat
  file_name : String
  file_type : String
deriving DecidableEq

/-- The materialized index range, inclusive at both ends.  The source field
named end is spelled stop here because end is a Lean keyword. -/
structure Range where
  start : Int
  stop : Int
deriving DecidableEq

/-- The grid state tracked by the ImageGrid element. -/
structure GridState where
  items : List Item
  cols : Int
  totalRows : Int
  maxEnd : Int
  window : Int
  range : Range
  surface : List Nat
  selected : Finset Nat
  primary : Option Nat
  dialogFile : Option Item
deriving DecidableEq

/-- Ceiling division on naturals; models Math.ceil(a / b) for b > 0. -/
def ceilDiv (a b : Nat) : Nat := (a + b - 1) / b

/-- The ascending index list a, a+1, ..., b-1 iterated by a JavaScript loop
for (i = a; i < b; i++).  Empty when b <= a. -/
def ascFromTo (a b : Int) : List Int :=
  (List.range (b - a).toNat).map (fun (k : Nat) => a + (k : Int))

/-- The descending index list a, a-1, ..., b iterated by a JavaScript loop
for (i = a; i >= b; i--).  Empty when a < b. -/
def descFromTo (a b : Int) : List Int :=
  (List.range (a + 1 - b).toNat).map (fun (k : Nat) => a - (k : Int))

/-- createElement(index) returns an element bound to items[index].id, or null
when the index is outside the collection; this returns the bound id. -/
def createElementId (items : List Item) (i : Int) : Option Nat :=
  if i < 0 then none else (items.get? i.toNat).map (fun f => f.id)

/-- removeElement(index): out-of-range indices are no-ops; otherwise the
first element bound to items[index].id is detached from the surface. -/
def removeElement (s : GridState) (i : Int) : GridState :=
  { s with surface :=
      match createElementId s.items i with
      | none => s.surface
      | some fid => s.surface.erase fid }

/-- createElement(i) followed by items.appendChild(element), skipped when
createElement returns null. -/
def appendElement (s : GridState) (i : Int) : GridState :=
  { s with surface :=
      match createElementId s.items i with
      | none => s.surface
      | some fid => s.surface ++ [fid] }

/-- createElement(i) followed by items.prepend(element), skipped when
createElement returns null. -/
def prependElement (s : GridState) (i : Int) : GridState :=
  { s with surface :=
      match createElementId s.items i with
      | none => s.surface
      | some fid => fid :: s.surface }

/-- cols = Math.max(1, Math.floor((width + 25) / (150 + 25))). -/
def colsOf (width : Nat) : Nat := max 1 ((width + 25) / 175)

/-- maxEnd = Math.ceil(items.length / cols) * cols - 1. -/
def maxEndOf (len cols : Nat) : Int := ((ceilDiv len cols * cols : Nat) : Int) - 1

/-- window = (rows + 30) * cols with rows = Math.ceil(viewportHeight / (200 + 25)). -/
def windowOf (viewportHeight cols : Nat) : Nat := (ceilDiv viewportHeight 225 + 30) * cols

/-- calculateLayout: recomputes cols, totalRows, maxEnd and window from the
wrapper width and viewport height and resets the range to
start = 0, end = min(window - 1, maxEnd).  Selection, dialog and surface
are the fresh-element defaults. -/
def calculateLayout (width viewportHeight : Nat) (items : List Item) : GridState :=
  { items := items
  , cols := (colsOf width : Int)
  , totalRows := (ceilDiv items.length (colsOf width) : Int)
  , maxEnd := maxEndOf items.length (colsOf width)
  , window := (windowOf viewportHeight (colsOf width) : Int)
  , range := { start := 0
             , stop := min ((windowOf viewportHeight (colsOf width) : Int) - 1)
                           (maxEndOf items.length (colsOf width)) }
  , surface := []
  , selected := ∅
  , primary := none
  , dialogFile := none }

/-- The initial materialization loop of connectedCallback:
for (i = range.start; i <= range.end; i++) append createElement(i). -/
def initialMaterialize (s : GridState) : GridState :=
  (ascFromTo s.range.start (s.range.stop + 1)).foldl appendElement s

/-- distance = Math.min(cols * 5, maxEnd - range.end). -/
def shiftForwardsDist (s : GridState) : Int := min (s.cols * 5) (s.maxEnd - s.range.stop)

/-- The indices iterated by the removal loop of shiftForwards:
for (i = oldStart; i < newStart; i++). -/
def shiftForwardsRemoves (s : GridState) : List Int :=
  ascFromTo s.range.start (s.range.start + shiftForwardsDist s)

/-- The indices iterated by the creation loop of shiftForwards:
for (i = oldEnd + 1; i <= newEnd; i++). -/
def shiftForwardsCreates (s : GridState) : List Int :=
  ascFromTo (s.range.stop + 1) (s.range.stop + 1 + shiftForwardsDist s)

/-- shiftForwards(): advance both bounds by distance, remove the indices
leaving the trailing edge in ascending order, then append the indices
entering the leading edge in ascending order. -/
def shiftForwards (s : GridState) : GridState :=
  let distance := shiftForwardsDist s
  let s1 := { s with range := { start := s.range.start + distance
                              , stop := s.range.stop + distance } }
  let s2 := (shiftForwardsRemoves s).foldl removeElement s1
  (shiftForwardsCreates s).foldl appendElement s2

/-- distance = Math.min(cols * 5, range.start). -/
def shiftBackwardsDist (s : GridState) : Int := min (s.cols * 5) s.range.start

/-- shiftBackwards(): move both bounds back by distance, prepend the entering
indices walking downwards from oldStart - 1 to newStart, then remove the
leaving indices walking downwards from oldEnd to newEnd + 1. -/
def shiftBackwards (s : GridState) : GridState :=
  let distance := shiftBackwardsDist s
  let newStart := s.range.start - distance
  let newEnd := s.range.stop - distance
  let s1 := { s with range := { start := newStart, stop := newEnd } }
  let s2 := (descFromTo (s.range.start - 1) newStart).foldl prependElement s1
  (descFromTo s.range.stop (newEnd + 1)).foldl removeElement s2

/-- shiftRange(start, removeExisting): optionally remove the whole current
window, then set range.start = Math.max(start, 0),
range.end = Math.min(range.start + window - 1, maxEnd), and append every
index of the new range in ascending order. -/
def shiftRange (s : GridState) (start : Int) (removeExisting : Bool) : GridState :=
  let s1 := if removeExisting
            then (ascFromTo s.range.start (s.range.stop + 1)).foldl removeElement s
            else s
  let newStart := max start 0
  let newEnd := min (newStart + s.window - 1) s.maxEnd
  let s2 := { s1 with range := { start := newStart, stop := newEnd } }
  (ascFromTo newStart (newEnd + 1)).foldl appendElement s2

/-- One window-manager call. -/
inductive GridOp where
  | forwards
  | backwards
  | range (target : Int) (drop : Bool)
deriving DecidableEq

/-- Apply one window-manager call to the grid state. -/
def applyOp (s : GridState) : GridOp → GridState
  | GridOp.forwards => shiftForwards s
  | GridOp.backwards => shiftBackwards s
  | GridOp.range t d => shiftRange s t d

/-- Apply a sequence of window-manager calls in order. -/
def applyOps (s : GridState) (ops : List GridOp) : GridState := ops.foldl applyOp s

/-- The Range invariant of the specification:
0 <= start <= end <= maxIndex. -/
def rangeInv (s : GridState) : Prop :=
  0 ≤ s.range.start ∧ s.range.start ≤ s.range.stop ∧ s.range.stop ≤ s.maxEnd

instance rangeInvDecidable (s : GridState) : Decidable (rangeInv s) :=
  decidable_of_iff
    (0 ≤ s.range.start ∧ s.range.start ≤ s.range.stop ∧ s.range.stop ≤ s.maxEnd)
    Iff.rfl

/-- The inductive invariant for claim C1: the static layout facts together
with the Range invariant. -/
def validState (s : GridState) : Prop :=
  0 ≤ s.cols ∧ 1 ≤ s.window ∧ 0 ≤ s.maxEnd ∧ rangeInv s

/-- setSelected(i, value): insert or delete the id in the selected set (and
mirror the state onto the element attribute, not tracked here). -/
def setSelected (s : GridState) (i : Nat) (value : Bool) : GridState :=
  if value then { s with selected := insert i s.selected }
  else { s with selected := s.selected.erase i }

/-- setPrimary(p): record the primary id (the preview side effect is not
tracked). -/
def setPrimary (s : GridState) (p : Option Nat) : GridState :=
  { s with primary := p }

/-- clearSelected(): deselect every selected id, then setPrimary(null). -/
def clearSelected (s : GridState) : GridState :=
  setPrimary { s with selected := ∅ } none

/-- The ctrl-click branch of the mousedown handler: toggle membership of the
clicked id; on removal clear primary if it was this id, on insertion make
this id primary. -/
def toggleCtrl (s : GridState) (i : Nat) : GridState :=
  if i ∈ s.selected then
    let s1 := setSelected s i false
    if s1.primary = some i then setPrimary s1 none else s1
  else
    setPrimary (setSelected s i true) (some i)

/-- Array.prototype.findIndex as an Option-valued position. -/
def findPos (p : Item → Bool) : List Item → Option Nat
  | [] => none
  | x :: rest => if p x then some 0 else (findPos p rest).map (fun n => n + 1)

/-- Array.prototype.findIndex: the first matching position, -1 when absent. -/
def jsFindIndex (items : List Item) (p : Item → Bool) : Int :=
  match findPos p items with
  | none => -1
  | some i => (i : Int)

/-- The JavaScript expression items[i].id: none models the TypeError thrown
when the index is outside the collection. -/
def idAtIndex (items : List Item) (i : Int) : Option Nat :=
  if i < 0 then none else (items.get? i.toNat).map (fun f => f.id)

/-- Read items[i].id for every index of the loop, failing (as the code would
throw) if any index is out of range. -/
def collectIds (items : List Item) : List Int → Option (List Nat)
  | [] => some []
  | i :: rest =>
    match idAtIndex items i, collectIds items rest with
    | some x, some xs => some (x :: xs)
    | _, _ => none

/-- The shift-click branch of the mousedown handler: resolve the previous
primary and the clicked id to collection positions, swap them if needed,
select items[i].id for every position of the closed interval, then make the
clicked id primary.  none models the guard (no primary) or a thrown
TypeError. -/
def selectRangeClick (s : GridState) (targetId : Nat) : Option GridState :=
  match s.primary with
  | none => none
  | some previousPrimary =>
    let startPosition := jsFindIndex s.items (fun v => v.id == previousPrimary)
    let endPosition := jsFindIndex s.items (fun v => v.id == targetId)
    let lo := if startPosition > endPosition then endPosition else startPosition
    let hi := if startPosition > endPosition then startPosition else endPosition
    match collectIds s.items (ascFromTo lo (hi + 1)) with
    | none => none
    | some ids =>
      some (setPrimary (ids.foldl (fun acc j => setSelected acc j true) s) (some targetId))

/-- updateSelected(): the selection-count summary text. -/
def updateSelected (selected : Finset Nat) : String :=
  if selected.card = 0 then ("No items selected")
  else toString selected.card ++ (" ") ++
    (if selected.card = 1 then ("item") else ("items")) ++ (" selected")

/-- changeFileDialog(file): the dialog now shows this file. -/
def changeFileDialog (s : GridState) (file : Item) : GridState :=
  { s with dialogFile := some file }

/-- The dialog branch of the keydown listener: with the dialog open,
ArrowLeft steps to items[index - 1] when index > 0 and ArrowRight to
items[index + 1] when index < items.length - 1, where index is
items.findIndex(x => x.id === dialogFile.id). -/
def handleDialogKey (s : GridState) (key : String) : GridState :=
  match s.dialogFile with
  | none => s
  | some f =>
    if key == ("ArrowLeft") then
      let index := jsFindIndex s.items (fun x => x.id == f.id)
      if index > 0 then
        match s.items.get? (index - 1).toNat with
        | some file => changeFileDialog s file
        | none => s
      else s
    else if key == ("ArrowRight") then
      let index := jsFindIndex s.items (fun x => x.id == f.id)
      if index < (s.items.length : Int) - 1 then
        match s.items.get? (index + 1).toNat with
        | some file => changeFileDialog s file
        | none => s
      else s
    else s

/-- The end-sentinel branch of the IntersectionObserver callback:
while (range.end <= items.length - 1) { shiftForwards();
if (sentinel far enough below the viewport) break; }.  The geometric break
test is abstracted as a predicate on the state (the rectangle can only
change when the state changes); fuel counts loop iterations and none means
the fuel ran out before the loop exited. -/
def endSentinelLoop (brk : GridState → Bool) : Nat → GridState → Option GridState
  | 0, _ => none
  | Nat.succ n, s =>
    if s.range.stop ≤ (s.items.length : Int) - 1 then
      (if brk (shiftForwards s) then some (shiftForwards s)
       else endSentinelLoop brk n (shiftForwards s))
    else some s

/-- A collection of n items with distinct ids 0, ..., n-1. -/
def mkItems (n : Nat) : List Item :=
  (List.range n).map (fun k => { id := k, file_name := (""), file_type := ("image") })

/-- 40 items at wrapper width 700 and viewport height 225: cols = 4,
maxEnd = 39, window = 124, initial range 0..39. -/
def grid40 : GridState := calculateLayout 700 225 (mkItems 40)

/-- 10 items, fresh selection state. -/
def grid10 : GridState := calculateLayout 700 225 (mkItems 10)

/-- The concrete scenario state of claim C5: columns = 4, range 0..15,
maxIndex = 39. -/
def gridC5 : GridState :=
  { items := mkItems 40, cols := 4, totalRows := 10, maxEnd := 39, window := 16
  , range := { start := 0, stop := 15 }
  , surface := [], selected := ∅, primary := none, dialogFile := none }

/-- 200 items at wrapper width 700: cols = 4, maxEnd = 199, window = 124,
initial range 0..123, far from both boundaries. -/
def gridC7 : GridState := calculateLayout 700 225 (mkItems 200)

/-- Five items with the item of id 1 as primary anchor. -/
def gridC8 : GridState :=
  { calculateLayout 700 225 (mkItems 5) with primary := some 1 }

/-- Three items with the detail dialog open on the middle item (id 1). -/
def gridC10 : GridState :=
  { calculateLayout 700 225 (mkItems 3) with
      dialogFile := some { id := 1, file_name := (""), file_type := ("image") } }

/-- 100 items at wrapper width 0 and viewport height 0: cols = 1,
maxEnd = 99, window = 30, initial range 0..29, materialized. -/
def gridC2 : GridState := initialMaterialize (calculateLayout 0 0 (mkItems 100))

/-- A reachable call sequence (recenter near the bottom, sentinel shifts,
recenter at the top, scroll forwards again) after which the surface holds
two elements bound to id 90. -/
def c2Ops : List GridOp :=
  [GridOp.range 97 true, GridOp.backwards, GridOp.forwards, GridOp.backwards,
   GridOp.backwards, GridOp.backwards, GridOp.forwards, GridOp.forwards,
   GridOp.forwards, GridOp.range 0 true] ++ List.replicate 13 GridOp.forwards

/-- Eight items at wrapper width 700: cols = 4 divides the item count, so
maxEnd = 7 = items.length - 1 and the materialized window covers everything. -/
def gridC6 : GridState := initialMaterialize (calculateLayout 700 225 (mkItems 8))

/-- A fold over surface-only element operations leaves every other field
unchanged. -/
lemma foldl_proj {α β : Type} (proj : GridState → β) (f : GridState → α → GridState)
    (hf : ∀ s a, proj (f s a) = proj s) :
    ∀ (l : List α) (s : GridState), proj (l.foldl f s) = proj s := by
  intro l
  induction l with
  | nil => intro s; rfl
  | cons a t ih => intro s; rw [List.foldl_cons, ih, hf]

lemma shiftForwards_range_start (s : GridState) :
    (shiftForwards s).range.start = s.range.start + shiftForwardsDist s := by
  simp only [shiftForwards]
  rw [foldl_proj GridState.range appendElement (fun _ _ => rfl),
    foldl_proj GridState.range removeElement (fun _ _ => rfl)]

lemma shiftForwards_range_stop (s : GridState) :
    (shiftForwards s).range.stop = s.range.stop + shiftForwardsDist s := by
  simp only [shiftForwards]
  rw [foldl_proj GridState.range appendElement (fun _ _ => rfl),
    foldl_proj GridState.range removeElement (fun _ _ => rfl)]

lemma shiftForwards_cols (s : GridState) : (shiftForwards s).cols = s.cols := by
  simp only [shiftForwards]
  rw [foldl_proj GridState.cols appendElement (fun _ _ => rfl),
    foldl_proj GridState.cols removeElement (fun _ _ => rfl)]

lemma shiftForwards_window (s : GridState) : (shiftForwards s).window = s.window := by
  simp only [shiftForwards]
  rw [foldl_proj GridState.window appendElement (fun _ _ => rfl),
    foldl_proj GridState.window removeElement (fun _ _ => rfl)]

lemma shiftForwards_maxEnd (s : GridState) : (shiftForwards s).maxEnd = s.maxEnd := by
  simp only [shiftForwards]
  rw [foldl_proj GridState.maxEnd appendElement (fun _ _ => rfl),
    foldl_proj GridState.maxEnd removeElement (fun _ _ => rfl)]

lemma shiftBackwards_range_start (s : GridState) :
    (shiftBackwards s).range.start = s.range.start - shiftBackwardsDist s := by
  simp only [shiftBackwards]
  rw [foldl_proj GridState.range removeElement (fun _ _ => rfl),
    foldl_proj GridState.range prependElement (fun _ _ => rfl)]

lemma shiftBackwards_range_stop (s : GridState) :
    (shiftBackwards s).range.stop = s.range.stop - shiftBackwardsDist s := by
  simp only [shiftBackwards]
  rw [foldl_proj GridState.range removeElement (fun _ _ => rfl),
    foldl_proj GridState.range prependElement (fun _ _ => rfl)]

lemma shiftBackwards_cols (s : GridState) : (shiftBackwards s).cols = s.cols := by
  simp only [shiftBackwards]
  rw [foldl_proj GridState.cols removeElement (fun _ _ => rfl),
    foldl_proj GridState.cols prependElement (fun _ _ => rfl)]

lemma shiftBackwards_window (s : GridState) : (shiftBackwards s).window = s.window := by
  simp only [shiftBackwards]
  rw [foldl_proj GridState.window removeElement (fun _ _ => rfl),
    foldl_proj GridState.window prependElement (fun _ _ => rfl)]

lemma shiftBackwards_maxEnd (s : GridState) : (shiftBackwards s).maxEnd = s.maxEnd := by
  simp only [shiftBackwards]
  rw [foldl_proj GridState.maxEnd removeElement (fun _ _ => rfl),
    foldl_proj GridState.maxEnd prependElement (fun _ _ => rfl)]

lemma shiftRange_range_start (s : GridState) (t : Int) (d : Bool) :
    (shiftRange s t d).range.start = max t 0 := by
  simp only [shiftRange]
  rw [foldl_proj GridState.range appendElement (fun _ _ => rfl)]

lemma shiftRange_range_stop (s : GridState) (t : Int) (d : Bool) :
    (shiftRange s t d).range.stop = min (max t 0 + s.window - 1) s.maxEnd := by
  simp only [shiftRange]
  rw [foldl_proj GridState.range appendElement (fun _ _ => rfl)]

lemma shiftRange_cols (s : GridState) (t : Int) (d : Bool) :
    (shiftRange s t d).cols = s.cols := by
  simp only [shiftRange]
  rw [foldl_proj GridState.cols appendElement (fun _ _ => rfl)]
  cases d
  · rfl
  · simp only [if_pos]
    rw [foldl_proj GridState.cols removeElement (fun _ _ => rfl)]

lemma shiftRange_window (s : GridState) (t : Int) (d : Bool) :
    (shiftRange s t d).window = s.window := by
  simp only [shiftRange]
  rw [foldl_proj GridState.window appendElement (fun _ _ => rfl)]
  cases d
  · rfl
  · simp only [if_pos]
    rw [foldl_proj GridState.window removeElement (fun _ _ => rfl)]

lemma shiftRange_maxEnd (s : GridState) (t : Int) (d : Bool) :
    (shiftRange s t d).maxEnd = s.maxEnd := by
  simp only [shiftRange]
  rw [foldl_proj GridState.maxEnd appendElement (fun _ _ => rfl)]
  cases d
  · rfl
  · simp only [if_pos]
    rw [foldl_proj GridState.maxEnd removeElement (fun _ _ => rfl)]

lemma applyOp_maxEnd (s : GridState) (op : GridOp) : (applyOp s op).maxEnd = s.maxEnd := by
  cases op with
  | forwards => exact shiftForwards_maxEnd s
  | backwards => exact shiftBackwards_maxEnd s
  | range t d => exact shiftRange_maxEnd s t d

lemma calculateLayout_valid (w vh : Nat) (items : List Item) (h : items ≠ []) :
    validState (calculateLayout w vh items) := by
  have hc : 1 ≤ colsOf w := le_max_left 1 _
  have hlen : 1 ≤ items.length := List.length_pos.mpr h
  have hcd : 1 ≤ ceilDiv items.length (colsOf w) := by
    unfold ceilDiv
    exact Nat.div_pos (by omega) (by omega)
  have hprod : 1 ≤ ceilDiv items.length (colsOf w) * colsOf w :=
    Nat.mul_le_mul hcd hc
  have hme : 0 ≤ maxEndOf items.length (colsOf w) := by
    unfold maxEndOf
    omega
  have hw : 1 ≤ windowOf vh (colsOf w) := by
    unfold windowOf
    have : 1 * 1 ≤ (ceilDiv vh 225 + 30) * colsOf w :=
      Nat.mul_le_mul (by omega) hc
    omega
  have hwz : (1 : Int) ≤ (windowOf vh (colsOf w) : Int) := by exact_mod_cast hw
  refine ⟨?_, ?_, ?_, ?_, ?_, ?_⟩ <;>
    simp only [validState, rangeInv, calculateLayout]
  · exact Int.natCast_nonneg _
  · exact hwz
  · exact hme
  · exact le_refl 0
  · exact le_min (by omega) hme
  · exact min_le_right _ _

lemma validStep (s : GridState) (op : GridOp) (hs : validState s)
    (hop : ∀ t d, op = GridOp.range t d → t ≤ s.maxEnd) :
    validState (applyOp s op) := by
  obtain ⟨hc, hw, hm, h0, h1, h2⟩ := hs
  have h5 : 0 ≤ s.cols * 5 := mul_nonneg hc (by norm_num)
  cases op with
  | forwards =>
    have hd1 : 0 ≤ shiftForwardsDist s := le_min h5 (by omega)
    have hd2 : shiftForwardsDist s ≤ s.maxEnd - s.range.stop := min_le_right _ _
    refine ⟨?_, ?_, ?_, ?_, ?_, ?_⟩ <;>
      simp only [applyOp, shiftForwards_cols, shiftForwards_window, shiftForwards_maxEnd,
        shiftForwards_range_start, shiftForwards_range_stop] <;>
      omega
  | backwards =>
    have hd1 : 0 ≤ shiftBackwardsDist s := le_min h5 h0
    have hd2 : shiftBackwardsDist s ≤ s.range.start := min_le_right _ _
    refine ⟨?_, ?_, ?_, ?_, ?_, ?_⟩ <;>
      simp only [applyOp, shiftBackwards_cols, shiftBackwards_window, shiftBackwards_maxEnd,
        shiftBackwards_range_start, shiftBackwards_range_stop] <;>
      omega
  | range t d =>
    have ht : t ≤ s.maxEnd := hop t d rfl
    have hx : max t 0 ≤ s.maxEnd := max_le ht hm
    refine ⟨?_, ?_, ?_, ?_, ?_, ?_⟩ <;>
      simp only [applyOp, shiftRange_cols, shiftRange_window, shiftRange_maxEnd,
        shiftRange_range_start, shiftRange_range_stop]
    · exact hc
    · exact hw
    · exact hm
    · exact le_max_right t 0
    · exact le_min (by omega) hx
    · exact min_le_right _ _

lemma applyOps_valid : ∀ (ops : List GridOp) (s : GridState), validState s →
    (∀ t d, GridOp.range t d ∈ ops → t ≤ s.maxEnd) → validState (applyOps s ops) := by
  intro ops
  induction ops with
  | nil => intro s hs _; exact hs
  | cons op rest ih =>
    intro s hs hops
    have hstep : validState (applyOp s op) :=
      validStep s op hs (fun t d hEq => hops t d (hEq ▸ List.mem_cons_self op rest))
    have hrest : ∀ t d, GridOp.range t d ∈ rest → t ≤ (applyOp s op).maxEnd := by
      intro t d hmem
      rw [applyOp_maxEnd]
      exact hops t d (List.mem_cons_of_mem op hmem)
    exact ih (applyOp s op) hstep hrest

/-- Claim C1, as stated, is false: shiftRange clamps its target only from
below, so from the layout state for 40 items (maxIndex = 39) the single
call shiftRange(45, true) leaves the range at start = 45, end = 39, and
start <= end fails. -/
theorem c1_counterexample :
    ¬ rangeInv (applyOps grid40 [GridOp.range 45 true]) := by decide

/-- Claim C1 (amended): for every nonempty item collection and every
sequence of shiftForwards, shiftBackwards and shiftRange calls whose
targetStart is at most maxIndex, applied to the range established by
calculateLayout, the range satisfies 0 <= start <= end <= maxIndex
afterwards. -/
theorem c1_amended (w vh : Nat) (items : List Item) (hne : items ≠ []) (ops : List GridOp)
    (hops : ∀ t d, GridOp.range t d ∈ ops → t ≤ (calculateLayout w vh items).maxEnd) :
    rangeInv (applyOps (calculateLayout w vh items) ops) :=
  (applyOps_valid ops (calculateLayout w vh items)
    (calculateLayout_valid w vh items hne) hops).2.2.2

/-- Witness for C1: a concrete mixed call sequence on the 40-item layout. -/
theorem c1_witness :
    rangeInv (applyOps grid40 [GridOp.forwards, GridOp.range 5 true, GridOp.backwards]) := by
  apply c1_amended 700 225 (mkItems 40) (by decide)
  intro t d hmem
  rcases List.mem_cons.mp hmem with h | hmem2
  · exact GridOp.noConfusion h
  rcases List.mem_cons.mp hmem2 with h | hmem3
  · injection h with h1 h2
    subst h1
    decide
  rcases List.mem_cons.mp hmem3 with h | hmem4
  · exact GridOp.noConfusion h
  · exact absurd hmem4 (List.not_mem_nil _)

/-- Claim C3, as stated, is false: the code computes
range.start = Math.max(start, 0) with no upper clamp, so on the 40-item
layout (maxIndex = 39) shiftRange(40, true) sets start = 40 > maxIndex. -/
theorem c3_counterexample :
    ¬ ((shiftRange grid40 40 true).range.start ≤ grid40.maxEnd) := by decide

/-- Claim C3 (amended): shiftRange(targetStart, dropExisting) sets the new
start to max(targetStart, 0) — clamped below only, values above maxIndex
stay above maxIndex — and sets the new end to
min(newStart + capacity - 1, maxIndex). -/
theorem c3_amended (s : GridState) (t : Int) (d : Bool) :
    (shiftRange s t d).range.start = max t 0 ∧
    (shiftRange s t d).range.stop = min (max t 0 + s.window - 1) s.maxEnd :=
  ⟨shiftRange_range_start s t d, shiftRange_range_stop s t d⟩

/-- Claim C4, as stated, is false: toggling a previously unselected id into
the set also makes it primary (the code calls setPrimary(id) in the else
branch), so from an empty selection toggle(7) yields primary = 7, not an
unchanged (unset) primary. -/
theorem c4_counterexample :
    (toggleCtrl grid10 7).selected = ({7} : Finset Nat) ∧
    (toggleCtrl grid10 7).primary ≠ none := by decide

/-- Claim C4 (amended): toggle(id) flips membership of id in the selected
set; toggling an unselected id in sets primary to that id; toggling out an
id equal to primary sets primary to null, and otherwise leaves primary
unchanged. -/
theorem c4_amended (s : GridState) (i : Nat) :
    (toggleCtrl s i).selected =
      (if i ∈ s.selected then s.selected.erase i else insert i s.selected) ∧
    (toggleCtrl s i).primary =
      (if i ∈ s.selected then (if s.primary = some i then none else s.primary)
       else some i) := by
  unfold toggleCtrl setSelected setPrimary
  by_cases h : i ∈ s.selected
  · by_cases hp : s.primary = some i <;> simp [h, hp]
  · simp [h]

/-- Claim C9, as stated, is false on the empty case: the code renders the
empty selection as "No items selected" with a capital N, not
"no items selected". -/
theorem c9_counterexample : updateSelected (∅ : Finset Nat) ≠ ("no items selected") := by
  decide

/-- Claim C9 (amended): the summary text is "No items selected" (capital N)
for an empty selection, "1 item selected" for a singleton, and
"n items selected" for n > 1 members. -/
theorem c9_amended (sel : Finset Nat) :
    updateSelected sel =
      (if sel.card = 0 then ("No items selected")
       else if sel.card = 1 then ("1 item selected")
       else toString sel.card ++ (" items selected")) := by
  unfold updateSelected
  by_cases h0 : sel.card = 0
  · simp [h0]
  · by_cases h1 : sel.card = 1
    · simp only [h0, h1, if_false, if_true, if_neg, if_pos]
      rfl
    · simp only [h0, h1, if_false, if_neg]
      rw [String.append_assoc, String.append_assoc]
      rfl

set_option maxRecDepth 100000 in
/-- Claim C2 fails on the code (code bug): after a reachable sequence of
window calls — recenter near the bottom with shiftRange(97, true), a few
sentinel-driven backward and forward shifts, recenter at the top with
shiftRange(0, true) and thirteen forward shifts — the rendering surface of
the 100-item grid holds two materialized elements bound to id 90. -/
theorem c2_duplicate_elements :
    ((applyOps gridC2 c2Ops).surface.count 90) = 2 := by decide

lemma endSentinelLoop_fixpoint (brk : GridState → Bool) (s : GridState)
    (hguard : s.range.stop ≤ (s.items.length : Int) - 1)
    (hfix : shiftForwards s = s) (hbrk : brk s = false) :
    ∀ n, endSentinelLoop brk n s = none := by
  intro n
  induction n with
  | zero => rfl
  | succ k ih =>
    show endSentinelLoop brk (k + 1) s = none
    simp only [endSentinelLoop]
    rw [if_pos hguard, hfix, hbrk]
    simpa using ih

/-- Claim C6 fails on the code (code bug): with 8 items and 4 columns,
maxEnd = 7 equals items.length - 1, so once the window covers the whole
collection the end-sentinel loop guard range.end <= items.length - 1 stays
true while shiftForwards is a no-op; if the sentinel stays within the
geometric break threshold the while loop never exits (no amount of fuel
completes it). -/
theorem c6_end_loop_diverges :
    ∀ n : Nat, endSentinelLoop (fun _ => false) n gridC6 = none :=
  endSentinelLoop_fixpoint (fun _ => false) gridC6 (by decide) (by decide) rfl

lemma mem_ascFromTo {a b i : Int} :
    i ∈ ascFromTo a b ↔ a ≤ i ∧ i < a + ((b - a).toNat : Int) := by
  unfold ascFromTo
  simp only [List.mem_map, List.mem_range]
  constructor
  · rintro ⟨k, hk, rfl⟩
    omega
  · intro h
    exact ⟨(i - a).toNat, by omega, by omega⟩

lemma sorted_ascFromTo (a b : Int) :
    List.Sorted (fun x y => x < y) (ascFromTo a b) := by
  unfold ascFromTo
  rw [List.Sorted, List.pairwise_map]
  exact (List.pairwise_lt_range _).imp (fun h => by omega)

lemma ascFromTo_self (a : Int) : ascFromTo a a = [] := by
  unfold ascFromTo
  simp

/-- Claim C5 (confirmed): shiftForwards computes
distance = min(columns * 5, maxIndex - end), advances both bounds by
distance, its removal loop visits exactly the indices
oldStart .. oldStart + distance - 1 in ascending order, its creation loop
visits exactly oldEnd + 1 .. oldEnd + distance in ascending order, and the
call is a no-op when end = maxIndex. -/
theorem c5_shiftForwards (s : GridState) (hc : 0 ≤ s.cols) (he : s.range.stop ≤ s.maxEnd) :
    (shiftForwards s).range.start =
      s.range.start + min (s.cols * 5) (s.maxEnd - s.range.stop) ∧
    (shiftForwards s).range.stop =
      s.range.stop + min (s.cols * 5) (s.maxEnd - s.range.stop) ∧
    (∀ i : Int, i ∈ shiftForwardsRemoves s ↔
      s.range.start ≤ i ∧ i < s.range.start + min (s.cols * 5) (s.maxEnd - s.range.stop)) ∧
    (∀ i : Int, i ∈ shiftForwardsCreates s ↔
      s.range.stop + 1 ≤ i ∧ i ≤ s.range.stop + min (s.cols * 5) (s.maxEnd - s.range.stop)) ∧
    List.Sorted (fun x y => x < y) (shiftForwardsRemoves s) ∧
    List.Sorted (fun x y => x < y) (shiftForwardsCreates s) ∧
    (s.range.stop = s.maxEnd → shiftForwards s = s) := by
  have h5 : 0 ≤ s.cols * 5 := mul_nonneg hc (by norm_num)
  have hd0 : 0 ≤ shiftForwardsDist s := le_min h5 (by omega)
  have hdeq : shiftForwardsDist s = min (s.cols * 5) (s.maxEnd - s.range.stop) := rfl
  refine ⟨?_, ?_, ?_, ?_, ?_, ?_, ?_⟩
  · rw [shiftForwards_range_start, hdeq]
  · rw [shiftForwards_range_stop, hdeq]
  · intro i
    unfold shiftForwardsRemoves
    rw [mem_ascFromTo, ← hdeq]
    omega
  · intro i
    unfold shiftForwardsCreates
    rw [mem_ascFromTo, ← hdeq]
    omega
  · exact sorted_ascFromTo _ _
  · exact sorted_ascFromTo _ _
  · intro hstop
    have hz : shiftForwardsDist s = 0 := by
      unfold shiftForwardsDist
      omega
    unfold shiftForwards shiftForwardsRemoves shiftForwardsCreates
    rw [hz]
    simp only [add_zero, ascFromTo_self, List.foldl_nil]

/-- Witness for C5: the concrete scenario columns = 4, range 0..15,
maxIndex = 39 yields the new range 20..35. -/
theorem c5_witness :
    (shiftForwards gridC5).range.start = 20 ∧ (shiftForwards gridC5).range.stop = 35 :=
  ⟨((c5_shiftForwards gridC5 (by decide) (by decide)).1).trans (by decide),
   ((c5_shiftForwards gridC5 (by decide) (by decide)).2.1).trans (by decide)⟩

/-- Claim C7 (confirmed): when shiftForwards is not boundary-clamped
(columns * 5 <= maxIndex - end) and the range start is nonnegative — which
makes the following shiftBackwards unclamped as well — shiftForwards
followed immediately by shiftBackwards restores the original range. -/
theorem c7_round_trip (s : GridState) (h0 : 0 ≤ s.range.start)
    (h2 : s.cols * 5 ≤ s.maxEnd - s.range.stop) :
    (shiftBackwards (shiftForwards s)).range.start = s.range.start ∧
    (shiftBackwards (shiftForwards s)).range.stop = s.range.stop := by
  have hd1 : shiftForwardsDist s = s.cols * 5 := min_eq_left h2
  have hr1 : (shiftForwards s).range.start = s.range.start + s.cols * 5 := by
    rw [shiftForwards_range_start, hd1]
  have hr2 : (shiftForwards s).range.stop = s.range.stop + s.cols * 5 := by
    rw [shiftForwards_range_stop, hd1]
  have hd2 : shiftBackwardsDist (shiftForwards s) = s.cols * 5 := by
    unfold shiftBackwardsDist
    rw [shiftForwards_cols, hr1]
    exact min_eq_left (by omega)
  constructor
  · rw [shiftBackwards_range_start, hd2, hr1]
    omega
  · rw [shiftBackwards_range_stop, hd2, hr2]
    omega

set_option maxRecDepth 100000 in
/-- Witness for C7: on the 200-item layout (range 0..123, maxIndex 199,
columns 4) the round trip restores the range exactly. -/
theorem c7_witness :
    (shiftBackwards (shiftForwards gridC7)).range.start = gridC7.range.start ∧
    (shiftBackwards (shiftForwards gridC7)).range.stop = gridC7.range.stop :=
  c7_round_trip gridC7 (by decide) (by decide)

lemma findPos_lt_length {p : Item → Bool} :
    ∀ {l : List Item} {i : Nat}, findPos p l = some i → i < l.length := by
  intro l
  induction l with
  | nil =>
    intro i h
    exact absurd h (by simp [findPos])
  | cons x rest ih =>
    intro i h
    unfold findPos at h
    by_cases hx : p x
    · rw [if_pos hx] at h
      injection h with h1
      subst h1
      simp
    · rw [if_neg hx] at h
      obtain ⟨j, hj, hji⟩ := Option.map_eq_some'.mp h
      have := ih hj
      simp only [List.length_cons]
      omega

lemma collectIds_spec (items : List Item) :
    ∀ (l : List Int), (∀ i ∈ l, 0 ≤ i ∧ i.toNat < items.length) →
    ∃ ids, collectIds items l = some ids ∧
      ∀ x, (x ∈ ids ↔ ∃ i ∈ l, idAtIndex items i = some x) := by
  intro l
  induction l with
  | nil =>
    intro _
    exact ⟨[], rfl, by simp⟩
  | cons i rest ih =>
    intro hb
    obtain ⟨h0, hlt⟩ := hb i (List.mem_cons_self i rest)
    obtain ⟨ids, hids, hmem⟩ := ih (fun j hj => hb j (List.mem_cons_of_mem i hj))
    have hsome : idAtIndex items i = some ((items.get ⟨i.toNat, hlt⟩).id) := by
      unfold idAtIndex
      rw [if_neg (by omega), List.get?_eq_get hlt]
      rfl
    refine ⟨(items.get ⟨i.toNat, hlt⟩).id :: ids, ?_, ?_⟩
    · show collectIds items (i :: rest) = _
      unfold collectIds
      rw [hsome, hids]
    · intro x
      simp only [List.mem_cons]
      constructor
      · rintro (rfl | hx)
        · exact ⟨i, Or.inl rfl, hsome⟩
        · obtain ⟨j, hj, hjx⟩ := (hmem x).mp hx
          exact ⟨j, Or.inr hj, hjx⟩
      · rintro ⟨j, (rfl | hj), hjx⟩
        · left
          rw [hsome] at hjx
          injection hjx with h
          exact h.symm
        · right
          exact (hmem x).mpr ⟨j, hj, hjx⟩

lemma foldSelect_mem (ids : List Nat) :
    ∀ (s : GridState) (x : Nat),
      (x ∈ (ids.foldl (fun acc j => setSelected acc j true) s).selected ↔
        x ∈ s.selected ∨ x ∈ ids) := by
  induction ids with
  | nil =>
    intro s x
    simp
  | cons j rest ih =>
    intro s x
    rw [List.foldl_cons, ih]
    rw [show (setSelected s j true).selected = insert j s.selected from rfl,
      Finset.mem_insert]
    simp only [List.mem_cons]
    tauto

lemma selectInterval_spec (items : List Item) (lo hi : Nat) (hhi : hi < items.length) :
    ∃ ids, collectIds items (ascFromTo (lo : Int) ((hi : Int) + 1)) = some ids ∧
      ∀ x, (x ∈ ids ↔ ∃ i : Nat, lo ≤ i ∧ i ≤ hi ∧
        ∃ hlt : i < items.length, (items.get ⟨i, hlt⟩).id = x) := by
  have hb : ∀ i ∈ ascFromTo (lo : Int) ((hi : Int) + 1), 0 ≤ i ∧ i.toNat < items.length := by
    intro i hmemi
    rw [mem_ascFromTo] at hmemi
    omega
  obtain ⟨ids, hids, hmem⟩ := collectIds_spec items _ hb
  refine ⟨ids, hids, fun x => ?_⟩
  rw [hmem]
  constructor
  · rintro ⟨i, hi_mem, hidx⟩
    rw [mem_ascFromTo] at hi_mem
    unfold idAtIndex at hidx
    rw [if_neg (by omega)] at hidx
    obtain ⟨f, hf, hfx⟩ := Option.map_eq_some'.mp hidx
    obtain ⟨hlt, hget⟩ := List.get?_eq_some.mp hf
    refine ⟨i.toNat, by omega, by omega, hlt, ?_⟩
    rw [hget]
    exact hfx
  · rintro ⟨i, hlo, hhi2, hlt, hx⟩
    refine ⟨(i : Int), ?_, ?_⟩
    · rw [mem_ascFromTo]
      omega
    · unfold idAtIndex
      rw [if_neg (by omega), Int.toNat_natCast i, List.get?_eq_get hlt]
      simpa using hx

/-- Claim C8 (confirmed): for a primary/anchor id a and a shift-clicked id b,
both present in the collection at (first) positions pa and pb, the
shift-click branch resolves both ids to collection positions and selects
exactly the ids of the closed position interval between them — whichever
end is larger, and independently of the materialized window, which the
branch never consults — then makes b primary. -/
theorem c8_select_range (s : GridState) (a b pa pb : Nat)
    (hp : s.primary = some a)
    (ha : findPos (fun v => v.id == a) s.items = some pa)
    (hb : findPos (fun v => v.id == b) s.items = some pb) :
    ∃ s2, selectRangeClick s b = some s2 ∧ s2.primary = some b ∧
      ∀ x : Nat, (x ∈ s2.selected ↔ x ∈ s.selected ∨
        ∃ i : Nat, min pa pb ≤ i ∧ i ≤ max pa pb ∧
          ∃ hlt : i < s.items.length, (s.items.get ⟨i, hlt⟩).id = x) := by
  have hpa : pa < s.items.length := findPos_lt_length ha
  have hpb : pb < s.items.length := findPos_lt_length hb
  have hja : jsFindIndex s.items (fun v => v.id == a) = (pa : Int) := by
    unfold jsFindIndex
    rw [ha]
  have hjb : jsFindIndex s.items (fun v => v.id == b) = (pb : Int) := by
    unfold jsFindIndex
    rw [hb]
  unfold selectRangeClick
  simp only [hp, hja, hjb]
  by_cases hgt : (pa : Int) > (pb : Int)
  · rw [if_pos hgt, if_pos hgt]
    have hcast : pb < pa := by exact_mod_cast hgt
    have hmin : min pa pb = pb := min_eq_right (le_of_lt hcast)
    have hmax : max pa pb = pa := max_eq_left (le_of_lt hcast)
    obtain ⟨ids, hids, hmem⟩ := selectInterval_spec s.items pb pa hpa
    rw [hids]
    refine ⟨_, rfl, rfl, ?_⟩
    intro x
    rw [show (setPrimary ((ids.foldl (fun acc j => setSelected acc j true) s)) (some b)).selected
        = (ids.foldl (fun acc j => setSelected acc j true) s).selected from rfl]
    rw [foldSelect_mem, hmin, hmax, hmem x]
  · rw [if_neg hgt, if_neg hgt]
    have hcast : pa ≤ pb := by
      have := le_of_not_lt hgt
      exact_mod_cast this
    have hmin : min pa pb = pa := min_eq_left hcast
    have hmax : max pa pb = pb := max_eq_right hcast
    obtain ⟨ids, hids, hmem⟩ := selectInterval_spec s.items pa pb hpb
    rw [hids]
    refine ⟨_, rfl, rfl, ?_⟩
    intro x
    rw [show (setPrimary ((ids.foldl (fun acc j => setSelected acc j true) s)) (some b)).selected
        = (ids.foldl (fun acc j => setSelected acc j true) s).selected from rfl]
    rw [foldSelect_mem, hmin, hmax, hmem x]

/-- Witness for C8: on five items with primary id 1, shift-clicking id 3
selects exactly positions 1..3 and makes 3 primary. -/
theorem c8_witness :
    ∃ s2, selectRangeClick gridC8 3 = some s2 ∧ s2.primary = some 3 ∧
      ∀ x : Nat, (x ∈ s2.selected ↔ x ∈ gridC8.selected ∨
        ∃ i : Nat, min 1 3 ≤ i ∧ i ≤ max 1 3 ∧
          ∃ hlt : i < gridC8.items.length, (gridC8.items.get ⟨i, hlt⟩).id = x) :=
  c8_select_range gridC8 1 3 1 3 rfl (by decide) (by decide)

/-- Claim C10 (confirmed): with the detail dialog open on an item whose id
sits at (first) position p of the full ordered collection — independent of
the materialized window, which the handler never consults — ArrowRight
moves the dialog to the item at position p + 1 and is a no-op at the last
position, and ArrowLeft moves it to position p - 1 and is a no-op at
position 0. -/
theorem c10_dialog_nav (s : GridState) (f : Item) (p : Nat)
    (hd : s.dialogFile = some f)
    (hp : findPos (fun x => x.id == f.id) s.items = some p) :
    (p + 1 < s.items.length →
      (handleDialogKey s ("ArrowRight")).dialogFile = s.items.get? (p + 1)) ∧
    (p + 1 = s.items.length → handleDialogKey s ("ArrowRight") = s) ∧
    (0 < p → (handleDialogKey s ("ArrowLeft")).dialogFile = s.items.get? (p - 1)) ∧
    (p = 0 → handleDialogKey s ("ArrowLeft") = s) := by
  have hplen : p < s.items.length := findPos_lt_length hp
  have hj : jsFindIndex s.items (fun x => x.id == f.id) = (p : Int) := by
    unfold jsFindIndex
    rw [hp]
  have hRL : ((("ArrowRight" : String) == ("ArrowLeft" : String)) = false) := rfl
  have hRR : ((("ArrowRight" : String) == ("ArrowRight" : String)) = true) := rfl
  have hLL : ((("ArrowLeft" : String) == ("ArrowLeft" : String)) = true) := rfl
  refine ⟨?_, ?_, ?_, ?_⟩
  · intro hlt
    unfold handleDialogKey
    simp only [hd, hj, hRL, hRR, Bool.false_eq_true, if_false, eq_self_iff_true, if_true]
    rw [if_pos (by omega : (p : Int) < (s.items.length : Int) - 1)]
    have htn : ((p : Int) + 1).toNat = p + 1 := by omega
    rw [htn]
    obtain ⟨file, hfile⟩ : ∃ file, s.items.get? (p + 1) = some file :=
      ⟨s.items.get ⟨p + 1, hlt⟩, List.get?_eq_get hlt⟩
    rw [hfile]
    rfl
  · intro hEq
    unfold handleDialogKey
    simp only [hd, hj, hRL, hRR, Bool.false_eq_true, if_false, eq_self_iff_true, if_true]
    rw [if_neg (by omega : ¬ (p : Int) < (s.items.length : Int) - 1)]
  · intro hpos
    unfold handleDialogKey
    simp only [hd, hj, hLL, eq_self_iff_true, if_true]
    rw [if_pos (by omega : (p : Int) > 0)]
    have htn : ((p : Int) - 1).toNat = p - 1 := by omega
    rw [htn]
    have hlt : p - 1 < s.items.length := by omega
    obtain ⟨file, hfile⟩ : ∃ file, s.items.get? (p - 1) = some file :=
      ⟨s.items.get ⟨p - 1, hlt⟩, List.get?_eq_get hlt⟩
    rw [hfile]
    rfl
  · intro hEq
    unfold handleDialogKey
    simp only [hd, hj, hLL, eq_self_iff_true, if_true]
    rw [if_neg (by omega : ¬ (p : Int) > 0)]

/-- Witness for C10: three items with the dialog on the middle one;
ArrowRight moves to position 2 and ArrowLeft to position 0. -/
theorem c10_witness :
    (handleDialogKey gridC10 ("ArrowRight")).dialogFile = gridC10.items.get? 2 ∧
    (handleDialogKey gridC10 ("ArrowLeft")).dialogFile = gridC10.items.get? 0 := by
  have h := c10_dialog_nav gridC10
    { id := 1, file_name := (""), file_type := ("image") } 1 rfl (by decide)
  exact ⟨h.1 (by decide), h.2.2.1 (by decide)⟩
